import Mathlib

/-!
# Verification of the HyperDbg kernel-debugger control plane (`Kd.c`)

A shallow embedding of the routines of `src/hyperdbg/hprdbghv/Kd.c` together
with proofs about the transport framing, the checksum, the core-switching
logic, the register reader, the process switcher, the dispatcher's control
flow, and the cross-core halt coordinator.

Bytes are modelled as `Nat` values; the 8-bit truncation of the C `BYTE`
arithmetic is written out explicitly as `% 256`.  Arrays written by index are
modelled as functions `Nat → Nat` updated pointwise.
-/

namespace HyperDbgKd

/-! ## Transport checksum (`KdComputeDataChecksum`, Kd.c 225-237) -/

/-- One step of the checksum loop of `KdComputeDataChecksum` (Kd.c 230-235):
`CalculatedCheckSum = CalculatedCheckSum + Temp` performed on C `BYTE`
operands, i.e. truncated to 8 bits. -/
def kdChecksumStep (acc b : Nat) : Nat := (acc + b) % 256

/-- `KdComputeDataChecksum` (Kd.c 225-237): walks the buffer once, adding
every byte into a `BYTE` accumulator that starts at 0. -/
def KdComputeDataChecksum (buffer : List Nat) : Nat :=
  buffer.foldl kdChecksumStep 0

theorem kdChecksumStep_foldl (l : List Nat) (s : Nat) :
    l.foldl kdChecksumStep (s % 256) = (s + l.sum) % 256 := by
  induction l generalizing s with
  | nil => simp
  | cons b t ih =>
      simp only [List.foldl_cons, List.sum_cons, kdChecksumStep]
      rw [Nat.mod_add_mod, ih (s + b), Nat.add_assoc]

/-- The checksum of a byte list is just its sum reduced mod 256. -/
theorem kdComputeDataChecksum_eq_sum (l : List Nat) :
    KdComputeDataChecksum l = l.sum % 256 := by
  have h := kdChecksumStep_foldl l 0
  simpa [KdComputeDataChecksum] using h

theorem kdComputeDataChecksum_lt (l : List Nat) :
    KdComputeDataChecksum l < 256 := by
  rw [kdComputeDataChecksum_eq_sum]
  exact Nat.mod_lt _ (by norm_num)

/-! ## Response packets (`KdResponsePacketToDebugger`, Kd.c 248-315)

Modelled from the spec: the `DEBUGGER_REMOTE_PACKET` structure is not part of
`src/` (only its uses are).  Per the spec's data model, the packet header
carries a one-byte checksum field whose value is "the truncated 8-bit sum over
header-after-checksum-field concatenated with payload", which is exactly what
the source computes by summing from `(UINT64)&Packet + 1` for
`sizeof(DEBUGGER_REMOTE_PACKET) - sizeof(BYTE)` bytes.  We therefore model the
serialized header as the checksum byte followed by the remaining header bytes
(`headerRest`: Indicator, TypeOfThePacket, RequestedActionOfThePacket). -/

/-- `KdResponsePacketToDebugger` (Kd.c 248-315), as the byte stream it hands
to the serial transport: the header (checksum byte first, then the rest of
the header) followed by the optional payload.  The two C branches (payload
absent vs. present) are kept: in both, the checksum is computed over the
header bytes after the checksum field, and in the second the payload checksum
is added with `BYTE` (`+=`, mod 256) arithmetic. -/
def KdResponsePacketToDebugger (headerRest payload : List Nat) : List Nat :=
  if payload.isEmpty then
    KdComputeDataChecksum headerRest :: headerRest
  else
    ((KdComputeDataChecksum headerRest + KdComputeDataChecksum payload) % 256) ::
      (headerRest ++ payload)

/-- The receiving side's checksum validation
(`KdDispatchAndPerformCommandsFromDebugger`, Kd.c 1290-1292): recompute the
checksum over the `RecvBufferLength - sizeof(BYTE)` bytes that follow the
checksum field and compare it with the stored checksum byte. -/
def KdReceiverChecksumOk (received : List Nat) : Bool :=
  KdComputeDataChecksum (received.drop 1) == received.headD 0

/-- C2: Sender/receiver checksum agreement.  For every packet built by
`KdResponsePacketToDebugger` — any header contents and any optional payload —
delivered without corruption, the checksum the receiver recomputes over the
bytes after the checksum field equals the checksum byte stored in the packet:
both sides compute the truncated 8-bit sum over the header after the checksum
field concatenated with the payload. -/
theorem kd_c2_checksum_agreement (headerRest payload : List Nat) :
    KdReceiverChecksumOk (KdResponsePacketToDebugger headerRest payload) = true := by
  unfold KdResponsePacketToDebugger
  by_cases h : payload.isEmpty
  · simp only [h, if_pos]
    simp [KdReceiverChecksumOk]
  · simp only [h, if_neg, Bool.false_eq_true, not_false_iff]
    simp only [KdReceiverChecksumOk, List.drop_succ_cons, List.drop_zero, List.headD_cons,
      beq_iff_eq]
    rw [kdComputeDataChecksum_eq_sum, kdComputeDataChecksum_eq_sum,
      kdComputeDataChecksum_eq_sum, List.sum_append, Nat.add_mod]

/-! ## Receive framing (`KdCheckForTheEndOfTheBuffer`, Kd.c 180-216 and
`KdRecvBuffer`, Kd.c 380-427)

Modelled from the spec: the four sentinel byte constants
`SERIAL_END_OF_BUFFER_CHAR_1..4` and the constant `MaxSerialPacketSize` are
defined outside `src/`; the spec fixes only that the sentinel is 4 bytes long
and that the maximum total length is fixed, so concrete values are chosen
here.  All theorems below depend only on the sentinel being 4 bytes. -/

def SERIAL_END_OF_BUFFER_CHAR_1 : Nat := 0x00

def SERIAL_END_OF_BUFFER_CHAR_2 : Nat := 0x80

def SERIAL_END_OF_BUFFER_CHAR_3 : Nat := 0xEE

def SERIAL_END_OF_BUFFER_CHAR_4 : Nat := 0xFF

def MaxSerialPacketSize : Nat := 320

/-- Pointwise array store `Buffer[i] = v`. -/
def bufWrite (buf : Nat → Nat) (i v : Nat) : Nat → Nat :=
  Function.update buf i v

/-- `KdCheckForTheEndOfTheBuffer` (Kd.c 180-216).  `CurrentLoopIndex` is the
index of the byte just stored.  Returns whether the match succeeded, the new
loop index (`ActualBufferLength - 3` on a match), the possibly-updated buffer
(the four sentinel bytes are overwritten with `NULL` on a match), and the
list of indices the function wrote to. -/
def KdCheckForTheEndOfTheBuffer (CurrentLoopIndex : Nat) (Buffer : Nat → Nat) :
    Bool × Nat × (Nat → Nat) × List Nat :=
  if CurrentLoopIndex ≤ 3 then
    (false, CurrentLoopIndex, Buffer, [])
  else if Buffer CurrentLoopIndex = SERIAL_END_OF_BUFFER_CHAR_4
      ∧ Buffer (CurrentLoopIndex - 1) = SERIAL_END_OF_BUFFER_CHAR_3
      ∧ Buffer (CurrentLoopIndex - 2) = SERIAL_END_OF_BUFFER_CHAR_2
      ∧ Buffer (CurrentLoopIndex - 3) = SERIAL_END_OF_BUFFER_CHAR_1 then
    (true, CurrentLoopIndex - 3,
      bufWrite (bufWrite (bufWrite (bufWrite Buffer (CurrentLoopIndex - 3) 0)
        (CurrentLoopIndex - 2) 0) (CurrentLoopIndex - 1) 0) CurrentLoopIndex 0,
      [CurrentLoopIndex - 3, CurrentLoopIndex - 2, CurrentLoopIndex - 1, CurrentLoopIndex])
  else
    (false, CurrentLoopIndex, Buffer, [])

/-- Outcome of `KdRecvBuffer` on a finite incoming byte stream.  `ok` is the
`return TRUE` path (final buffer, `*LengthReceived`, indices written);
`tooLarge` is the `return FALSE` path taken when the maximum packet size is
reached; `starved` means the stream ran out before either exit, i.e. the real
function would still be blocking in its polling loop waiting for more bytes. -/
inductive RecvResult where
  | ok (buffer : Nat → Nat) (lengthReceived : Nat) (writes : List Nat)
  | tooLarge (writes : List Nat)
  | starved (writes : List Nat)

def RecvResult.isOk : RecvResult → Bool
  | .ok _ _ _ => true
  | _ => false

def RecvResult.isStarved : RecvResult → Bool
  | .starved _ => true
  | _ => false

def RecvResult.writesOf : RecvResult → List Nat
  | .ok _ _ w => w
  | .tooLarge w => w
  | .starved w => w

/-- The loop body of `KdRecvBuffer` (Kd.c 389-419), one recursive step per
successfully received byte (a failed `KdHyperDbgRecvByte` just retries, so the
stream holds the successful reads).  The bounds check
`!(MaxSerialPacketSize > Loop)` precedes the store `BufferToSave[Loop]`. -/
def KdRecvBufferAux : List Nat → Nat → (Nat → Nat) → List Nat → RecvResult
  | [], _, _, writes => .starved writes
  | recvChar :: rest, loop, buf, writes =>
      if MaxSerialPacketSize ≤ loop then
        .tooLarge writes
      else
        let check := KdCheckForTheEndOfTheBuffer loop (bufWrite buf loop recvChar)
        if check.1 then
          .ok check.2.2.1 check.2.1 ((writes ++ [loop]) ++ check.2.2.2)
        else
          KdRecvBufferAux rest (loop + 1) (bufWrite buf loop recvChar) (writes ++ [loop])

/-- `KdRecvBuffer` (Kd.c 380-427) over a finite stream of received bytes,
starting from caller-provided buffer contents (the dispatcher passes a
zero-initialized buffer). -/
def KdRecvBuffer (stream : List Nat) (buffer0 : Nat → Nat) : RecvResult :=
  KdRecvBufferAux stream 0 buffer0 []

/-- The match condition of `KdCheckForTheEndOfTheBuffer` expressed over the
incoming byte stream: `k` is the index of the last byte stored when the check
runs, and the check succeeds exactly when `k > 3` and bytes `k-3 .. k` of the
stream are the four sentinel characters. -/
def kdMatchAt (s : List Nat) (k : Nat) : Prop :=
  4 ≤ k ∧ s.getD k 0 = SERIAL_END_OF_BUFFER_CHAR_4
    ∧ s.getD (k - 1) 0 = SERIAL_END_OF_BUFFER_CHAR_3
    ∧ s.getD (k - 2) 0 = SERIAL_END_OF_BUFFER_CHAR_2
    ∧ s.getD (k - 3) 0 = SERIAL_END_OF_BUFFER_CHAR_1

instance (s : List Nat) (k : Nat) : Decidable (kdMatchAt s k) := by
  unfold kdMatchAt
  infer_instance

/-- The 4-byte end sentinel occurs in the stream starting at index `i`. -/
def sentinelOccursAt (s : List Nat) (i : Nat) : Prop :=
  i + 3 < s.length ∧ s.getD i 0 = SERIAL_END_OF_BUFFER_CHAR_1
    ∧ s.getD (i + 1) 0 = SERIAL_END_OF_BUFFER_CHAR_2
    ∧ s.getD (i + 2) 0 = SERIAL_END_OF_BUFFER_CHAR_3
    ∧ s.getD (i + 3) 0 = SERIAL_END_OF_BUFFER_CHAR_4

instance (s : List Nat) (i : Nat) : Decidable (sentinelOccursAt s i) := by
  unfold sentinelOccursAt
  infer_instance

theorem drop_eq_cons_getD (s : List Nat) :
    ∀ (k c : Nat) (t : List Nat), s.drop k = c :: t →
      s.getD k 0 = c ∧ s.drop (k + 1) = t := by
  induction s with
  | nil => intro k c t h; simp at h
  | cons a s' ih =>
      intro k c t h
      match k with
      | 0 =>
          simp only [List.drop_zero] at h
          cases h
          exact ⟨rfl, by simp⟩
      | k' + 1 =>
          simp only [List.drop_succ_cons] at h
          have := ih k' c t h
          exact ⟨this.1, this.2⟩

theorem drop_ne_nil_of_lt (s : List Nat) (k : Nat) (h : k < s.length) :
    s.drop k ≠ [] := by
  intro hnil
  have := List.drop_eq_nil_iff.mp hnil
  omega

/-- Evaluating the end-of-buffer check when no match is possible. -/
theorem kdCheck_no_match (idx : Nat) (buf : Nat → Nat)
    (h : ¬ (4 ≤ idx ∧ buf idx = SERIAL_END_OF_BUFFER_CHAR_4
      ∧ buf (idx - 1) = SERIAL_END_OF_BUFFER_CHAR_3
      ∧ buf (idx - 2) = SERIAL_END_OF_BUFFER_CHAR_2
      ∧ buf (idx - 3) = SERIAL_END_OF_BUFFER_CHAR_1)) :
    KdCheckForTheEndOfTheBuffer idx buf = (false, idx, buf, []) := by
  unfold KdCheckForTheEndOfTheBuffer
  by_cases h3 : idx ≤ 3
  · rw [if_pos h3]
  · rw [if_neg h3, if_neg]
    intro hc
    exact h ⟨by omega, hc⟩

/-- Evaluating the end-of-buffer check when the sentinel is present. -/
theorem kdCheck_match (idx : Nat) (buf : Nat → Nat) (h4 : 4 ≤ idx)
    (hc : buf idx = SERIAL_END_OF_BUFFER_CHAR_4
      ∧ buf (idx - 1) = SERIAL_END_OF_BUFFER_CHAR_3
      ∧ buf (idx - 2) = SERIAL_END_OF_BUFFER_CHAR_2
      ∧ buf (idx - 3) = SERIAL_END_OF_BUFFER_CHAR_1) :
    KdCheckForTheEndOfTheBuffer idx buf = (true, idx - 3,
      bufWrite (bufWrite (bufWrite (bufWrite buf (idx - 3) 0)
        (idx - 2) 0) (idx - 1) 0) idx 0,
      [idx - 3, idx - 2, idx - 1, idx]) := by
  unfold KdCheckForTheEndOfTheBuffer
  rw [if_neg (by omega), if_pos hc]

/-- After the four zeroing stores of a successful sentinel match, every index
in the sentinel's range `[L-3, L]` holds 0. -/
theorem bufWrite_quad_eval (b : Nat → Nat) (L : Nat) (hL : 4 ≤ L) (i : Nat)
    (h1 : L - 3 ≤ i) (h2 : i ≤ L) :
    (bufWrite (bufWrite (bufWrite (bufWrite b (L - 3) 0) (L - 2) 0) (L - 1) 0) L 0) i = 0 := by
  simp only [bufWrite, Function.update_apply]
  by_cases hA : i = L
  · simp [hA]
  · rw [if_neg hA]
    by_cases hB : i = L - 1
    · simp [hB]
    · rw [if_neg hB]
      by_cases hC : i = L - 2
      · simp [hC]
      · rw [if_neg hC, if_pos (by omega)]

/-- Below the sentinel's range, the zeroing stores do not touch the buffer. -/
theorem bufWrite_quad_lt (b : Nat → Nat) (L : Nat) (hL : 4 ≤ L) (i : Nat)
    (h1 : i < L - 3) :
    (bufWrite (bufWrite (bufWrite (bufWrite b (L - 3) 0) (L - 2) 0) (L - 1) 0) L 0) i = b i := by
  simp only [bufWrite, Function.update_apply]
  rw [if_neg (by omega), if_neg (by omega), if_neg (by omega), if_neg (by omega)]

/-- Main loop lemma for the successful path of `KdRecvBuffer`: if the stream's
only position satisfying the scanner's match condition is its last byte, the
loop runs to the end of the stream and returns the stripped buffer with
`*LengthReceived = s.length - 4`. -/
theorem kdRecvBufferAux_ok (s : List Nat)
    (hm_end : kdMatchAt s (s.length - 1))
    (hnoearly : ∀ k, k < s.length - 1 → ¬ kdMatchAt s k)
    (h5 : 5 ≤ s.length) (hmax : s.length ≤ MaxSerialPacketSize) :
    ∀ (rest : List Nat) (loop : Nat) (buf : Nat → Nat) (w : List Nat),
      rest = s.drop loop → loop < s.length →
      (∀ i, i < loop → buf i = s.getD i 0) →
      ∃ buf2 w2, KdRecvBufferAux rest loop buf w = .ok buf2 (s.length - 4) w2 ∧
        (∀ i, i < s.length - 4 → buf2 i = s.getD i 0) ∧
        (∀ i, s.length - 4 ≤ i → i < s.length → buf2 i = 0) := by
  intro rest
  induction rest with
  | nil =>
      intro loop buf w hdrop hloop _
      exact absurd hdrop.symm (drop_ne_nil_of_lt s loop hloop)
  | cons c rest' ih =>
      intro loop buf w hdrop hloop hagree
      obtain ⟨hc, hdrop'⟩ := drop_eq_cons_getD s loop c rest' hdrop.symm
      have hguard : ¬ MaxSerialPacketSize ≤ loop := by omega
      have hagree1 : ∀ i, i < loop + 1 → bufWrite buf loop c i = s.getD i 0 := by
        intro i hi
        by_cases hil : i = loop
        · rw [hil]
          simpa [bufWrite] using hc.symm
        · rw [bufWrite, Function.update_apply, if_neg hil]
          exact hagree i (by omega)
      by_cases hlast : loop = s.length - 1
      · -- the stored byte completes the sentinel: the check succeeds
        have h4 : 4 ≤ loop := by omega
        have hcond : bufWrite buf loop c loop = SERIAL_END_OF_BUFFER_CHAR_4
            ∧ bufWrite buf loop c (loop - 1) = SERIAL_END_OF_BUFFER_CHAR_3
            ∧ bufWrite buf loop c (loop - 2) = SERIAL_END_OF_BUFFER_CHAR_2
            ∧ bufWrite buf loop c (loop - 3) = SERIAL_END_OF_BUFFER_CHAR_1 := by
          refine ⟨?_, ?_, ?_, ?_⟩
          · rw [hagree1 loop (by omega), hlast]
            exact hm_end.2.1
          · rw [hagree1 (loop - 1) (by omega), hlast]
            exact hm_end.2.2.1
          · rw [hagree1 (loop - 2) (by omega), hlast]
            exact hm_end.2.2.2.1
          · rw [hagree1 (loop - 3) (by omega), hlast]
            exact hm_end.2.2.2.2
        have hcheck := kdCheck_match loop (bufWrite buf loop c) h4 hcond
        refine ⟨bufWrite (bufWrite (bufWrite (bufWrite (bufWrite buf loop c) (loop - 3) 0)
            (loop - 2) 0) (loop - 1) 0) loop 0,
          (w ++ [loop]) ++ [loop - 3, loop - 2, loop - 1, loop], ?_, ?_, ?_⟩
        · rw [KdRecvBufferAux]
          rw [if_neg hguard]
          simp only [hcheck, if_true]
          have : loop - 3 = s.length - 4 := by omega
          rw [this]
        · intro i hi
          rw [bufWrite_quad_lt _ loop h4 i (by omega)]
          exact hagree1 i (by omega)
        · intro i h1 h2
          exact bufWrite_quad_eval _ loop h4 i (by omega) (by omega)
      · -- not yet at the last byte: the check must fail, and the loop recurses
        have hlt : loop < s.length - 1 := by omega
        have hcheck : KdCheckForTheEndOfTheBuffer loop (bufWrite buf loop c) =
            (false, loop, bufWrite buf loop c, []) := by
          apply kdCheck_no_match
          intro hcond
          apply hnoearly loop hlt
          refine ⟨hcond.1, ?_, ?_, ?_, ?_⟩
          · rw [← hagree1 loop (by omega)]
            exact hcond.2.1
          · rw [← hagree1 (loop - 1) (by omega)]
            exact hcond.2.2.1
          · rw [← hagree1 (loop - 2) (by omega)]
            exact hcond.2.2.2.1
          · rw [← hagree1 (loop - 3) (by omega)]
            exact hcond.2.2.2.2
        have hstep : KdRecvBufferAux (c :: rest') loop buf w =
            KdRecvBufferAux rest' (loop + 1) (bufWrite buf loop c) (w ++ [loop]) := by
          rw [KdRecvBufferAux]
          rw [if_neg hguard]
          simp only [hcheck]
          rw [if_neg (by simp)]
        rw [hstep]
        exact ih (loop + 1) (bufWrite buf loop c) (w ++ [loop]) hdrop'.symm (by omega) hagree1

/-- Main loop lemma for the oversize path of `KdRecvBuffer`: if no position
below `MaxSerialPacketSize` satisfies the match condition and the stream is
longer than `MaxSerialPacketSize`, the loop hits the bounds check and fails. -/
theorem kdRecvBufferAux_tooLarge (s : List Nat)
    (hnomatch : ∀ k, k < MaxSerialPacketSize → ¬ kdMatchAt s k)
    (hlen : MaxSerialPacketSize < s.length) :
    ∀ (rest : List Nat) (loop : Nat) (buf : Nat → Nat) (w : List Nat),
      rest = s.drop loop → loop ≤ MaxSerialPacketSize →
      (∀ i, i < loop → buf i = s.getD i 0) →
      ∃ w2, KdRecvBufferAux rest loop buf w = .tooLarge w2 := by
  intro rest
  induction rest with
  | nil =>
      intro loop buf w hdrop hloop _
      exact absurd hdrop.symm (drop_ne_nil_of_lt s loop (by omega))
  | cons c rest' ih =>
      intro loop buf w hdrop hloop hagree
      obtain ⟨hc, hdrop'⟩ := drop_eq_cons_getD s loop c rest' hdrop.symm
      by_cases hfull : MaxSerialPacketSize ≤ loop
      · refine ⟨w, ?_⟩
        rw [KdRecvBufferAux, if_pos hfull]
      · have hagree1 : ∀ i, i < loop + 1 → bufWrite buf loop c i = s.getD i 0 := by
          intro i hi
          by_cases hil : i = loop
          · rw [hil]
            simpa [bufWrite] using hc.symm
          · rw [bufWrite, Function.update_apply, if_neg hil]
            exact hagree i (by omega)
        have hcheck : KdCheckForTheEndOfTheBuffer loop (bufWrite buf loop c) =
            (false, loop, bufWrite buf loop c, []) := by
          apply kdCheck_no_match
          intro hcond
          apply hnomatch loop (by omega)
          refine ⟨hcond.1, ?_, ?_, ?_, ?_⟩
          · rw [← hagree1 loop (by omega)]
            exact hcond.2.1
          · rw [← hagree1 (loop - 1) (by omega)]
            exact hcond.2.2.1
          · rw [← hagree1 (loop - 2) (by omega)]
            exact hcond.2.2.2.1
          · rw [← hagree1 (loop - 3) (by omega)]
            exact hcond.2.2.2.2
        have hstep : KdRecvBufferAux (c :: rest') loop buf w =
            KdRecvBufferAux rest' (loop + 1) (bufWrite buf loop c) (w ++ [loop]) := by
          rw [KdRecvBufferAux]
          rw [if_neg hfull]
          simp only [hcheck]
          rw [if_neg (by simp)]
        rw [hstep]
        exact ih (loop + 1) (bufWrite buf loop c) (w ++ [loop]) hdrop'.symm (by omega) hagree1

/-- A stream consisting of exactly the four sentinel bytes and nothing else. -/
def kdBareSentinelStream : List Nat :=
  [SERIAL_END_OF_BUFFER_CHAR_1, SERIAL_END_OF_BUFFER_CHAR_2,
    SERIAL_END_OF_BUFFER_CHAR_3, SERIAL_END_OF_BUFFER_CHAR_4]

/-- C3 counterexample: on the stream consisting of exactly the bare 4-byte
sentinel — a stream whose first occurrence of the sentinel ends the stream —
`KdRecvBuffer` does not return TRUE (with `*LengthReceived = 0`) after those
4 bytes.  The check `if (*CurrentLoopIndex <= 3) return FALSE;` in
`KdCheckForTheEndOfTheBuffer` (Kd.c 190-193) rejects any match whose last
byte index is ≤ 3, so the loop keeps polling for further bytes (`starved`
here): a match needs at least 5 received bytes, not 4. -/
theorem kd_c3_counterexample :
    (KdRecvBuffer kdBareSentinelStream (fun _ => 0)).isOk = false ∧
    (KdRecvBuffer kdBareSentinelStream (fun _ => 0)).isStarved = true :=
  ⟨rfl, rfl⟩

/-- C3 (amended): for every byte stream of at least 5 bytes (at least one
byte before the bare sentinel) and within the maximum packet size, whose
first (and only) sentinel occurrence ends the stream, `KdRecvBuffer` returns
TRUE with `*LengthReceived` equal to the total bytes received minus 4 and the
four sentinel bytes cleared from the buffer; and if the maximum packet size
is exceeded before any match, it returns FALSE. -/
theorem kd_c3_recv_buffer_amended :
    (∀ (s : List Nat) (buffer0 : Nat → Nat),
        5 ≤ s.length → s.length ≤ MaxSerialPacketSize →
        sentinelOccursAt s (s.length - 4) →
        (∀ i, i < s.length → sentinelOccursAt s i → i = s.length - 4) →
        ∃ buf2 w2,
          KdRecvBuffer s buffer0 = .ok buf2 (s.length - 4) w2 ∧
          (∀ i, i < s.length - 4 → buf2 i = s.getD i 0) ∧
          (∀ i, s.length - 4 ≤ i → i < s.length → buf2 i = 0))
    ∧ (∀ (s : List Nat) (buffer0 : Nat → Nat),
        MaxSerialPacketSize < s.length →
        (∀ k, k < MaxSerialPacketSize → ¬ kdMatchAt s k) →
        ∃ w2, KdRecvBuffer s buffer0 = .tooLarge w2) := by
  constructor
  · intro s buffer0 h5 hmax hend honly
    have hm_end : kdMatchAt s (s.length - 1) := by
      obtain ⟨hlt, h1, h2, h3, h4⟩ := hend
      refine ⟨by omega, ?_, ?_, ?_, ?_⟩
      · have e : s.length - 1 = s.length - 4 + 3 := by omega
        rw [e]; exact h4
      · have e : s.length - 1 - 1 = s.length - 4 + 2 := by omega
        rw [e]; exact h3
      · have e : s.length - 1 - 2 = s.length - 4 + 1 := by omega
        rw [e]; exact h2
      · have e : s.length - 1 - 3 = s.length - 4 := by omega
        rw [e]; exact h1
    have hnoearly : ∀ k, k < s.length - 1 → ¬ kdMatchAt s k := by
      intro k hk hmk
      obtain ⟨h4k, m4, m3, m2, m1⟩ := hmk
      have hocc : sentinelOccursAt s (k - 3) := by
        refine ⟨by omega, m1, ?_, ?_, ?_⟩
        · have e : k - 3 + 1 = k - 2 := by omega
          rw [e]; exact m2
        · have e : k - 3 + 2 = k - 1 := by omega
          rw [e]; exact m3
        · have e : k - 3 + 3 = k := by omega
          rw [e]; exact m4
      have := honly (k - 3) (by omega) hocc
      omega
    exact kdRecvBufferAux_ok s hm_end hnoearly h5 hmax s 0 buffer0 [] (by simp) (by omega)
      (fun i hi => absurd hi (Nat.not_lt_zero i))
  · intro s buffer0 hlen hnomatch
    exact kdRecvBufferAux_tooLarge s hnomatch hlen s 0 buffer0 [] (by simp) (by omega)
      (fun i hi => absurd hi (Nat.not_lt_zero i))

/-- A stream with one data byte before the sentinel. -/
def kdC3SampleStream : List Nat :=
  [7, SERIAL_END_OF_BUFFER_CHAR_1, SERIAL_END_OF_BUFFER_CHAR_2,
    SERIAL_END_OF_BUFFER_CHAR_3, SERIAL_END_OF_BUFFER_CHAR_4]

/-- A sentinel-free stream longer than the maximum packet size. -/
def kdC3OversizeStream : List Nat := List.replicate (MaxSerialPacketSize + 1) 0

theorem replicate_getD_zero (m k : Nat) : (List.replicate m 0).getD k 0 = 0 := by
  induction m generalizing k with
  | zero => simp
  | succ m ih =>
      match k with
      | 0 => simp [List.replicate]
      | k + 1 => simp [List.replicate, ih k]

theorem kdC3OversizeStream_no_match (k : Nat) (_ : k < MaxSerialPacketSize) :
    ¬ kdMatchAt kdC3OversizeStream k := by
  intro hm
  have h := hm.2.1
  rw [kdC3OversizeStream, replicate_getD_zero] at h
  simp [SERIAL_END_OF_BUFFER_CHAR_4] at h

theorem kd_c3_witness :
    (5 ≤ kdC3SampleStream.length ∧ kdC3SampleStream.length ≤ MaxSerialPacketSize ∧
      sentinelOccursAt kdC3SampleStream (kdC3SampleStream.length - 4) ∧
      (∀ i, i < kdC3SampleStream.length → sentinelOccursAt kdC3SampleStream i →
        i = kdC3SampleStream.length - 4) ∧
      ∃ buf2 w2, KdRecvBuffer kdC3SampleStream (fun _ => 0) =
          .ok buf2 (kdC3SampleStream.length - 4) w2 ∧
        (∀ i, i < kdC3SampleStream.length - 4 → buf2 i = kdC3SampleStream.getD i 0) ∧
        (∀ i, kdC3SampleStream.length - 4 ≤ i → i < kdC3SampleStream.length → buf2 i = 0)) ∧
    (MaxSerialPacketSize < kdC3OversizeStream.length ∧
      ∃ w2, KdRecvBuffer kdC3OversizeStream (fun _ => 0) = .tooLarge w2) :=
  ⟨⟨by decide, by decide, by decide, by decide,
      kd_c3_recv_buffer_amended.1 kdC3SampleStream (fun _ => 0)
        (by decide) (by decide) (by decide) (by decide)⟩,
    ⟨by rw [kdC3OversizeStream, List.length_replicate]; omega,
      kd_c3_recv_buffer_amended.2 kdC3OversizeStream (fun _ => 0)
        (by rw [kdC3OversizeStream, List.length_replicate]; omega)
        kdC3OversizeStream_no_match⟩⟩

/-! ## Bounds safety of the receive loop (C10) -/

theorem kdCheck_writes_le (idx : Nat) (buf : Nat → Nat) :
    ∀ i ∈ (KdCheckForTheEndOfTheBuffer idx buf).2.2.2, i ≤ idx := by
  intro i hi
  unfold KdCheckForTheEndOfTheBuffer at hi
  by_cases h3 : idx ≤ 3
  · rw [if_pos h3] at hi
    simp at hi
  · rw [if_neg h3] at hi
    by_cases hc : buf idx = SERIAL_END_OF_BUFFER_CHAR_4
        ∧ buf (idx - 1) = SERIAL_END_OF_BUFFER_CHAR_3
        ∧ buf (idx - 2) = SERIAL_END_OF_BUFFER_CHAR_2
        ∧ buf (idx - 3) = SERIAL_END_OF_BUFFER_CHAR_1
    · rw [if_pos hc] at hi
      simp only [List.mem_cons, List.mem_singleton, List.not_mem_nil, or_false] at hi
      rcases hi with h | h | h | h <;> omega
    · rw [if_neg hc] at hi
      simp at hi

theorem kdRecvBufferAux_writes_lt :
    ∀ (rest : List Nat) (loop : Nat) (buf : Nat → Nat) (w : List Nat),
      (∀ i ∈ w, i < MaxSerialPacketSize) →
      ∀ i ∈ (KdRecvBufferAux rest loop buf w).writesOf, i < MaxSerialPacketSize := by
  intro rest
  induction rest with
  | nil =>
      intro loop buf w hw i hi
      rw [KdRecvBufferAux] at hi
      exact hw i hi
  | cons c rest' ih =>
      intro loop buf w hw i hi
      rw [KdRecvBufferAux] at hi
      by_cases hfull : MaxSerialPacketSize ≤ loop
      · rw [if_pos hfull] at hi
        exact hw i hi
      · rw [if_neg hfull] at hi
        simp only [] at hi
        by_cases hc : (KdCheckForTheEndOfTheBuffer loop (bufWrite buf loop c)).1 = true
        · rw [if_pos hc] at hi
          simp only [RecvResult.writesOf, List.mem_append, List.mem_singleton] at hi
          rcases hi with (hi | hi) | hi
          · exact hw i hi
          · omega
          · have := kdCheck_writes_le loop (bufWrite buf loop c) i hi
            omega
        · rw [if_neg hc] at hi
          refine ih (loop + 1) (bufWrite buf loop c) (w ++ [loop]) ?_ i hi
          intro j hj
          rcases List.mem_append.mp hj with hj | hj
          · exact hw j hj
          · have : j = loop := List.mem_singleton.mp hj
            omega

/-- C10: `KdRecvBuffer` never writes to `BufferToSave` at an index at or
beyond `MaxSerialPacketSize` — the bounds check at Kd.c 402-409 precedes
every store, so on every incoming byte stream each index written (by the
store at Kd.c 411 and by the sentinel-clearing stores in
`KdCheckForTheEndOfTheBuffer`) is strictly below `MaxSerialPacketSize`. -/
theorem kd_c10_recv_write_bounds (stream : List Nat) (buffer0 : Nat → Nat) (i : Nat)
    (hi : i ∈ (KdRecvBuffer stream buffer0).writesOf) : i < MaxSerialPacketSize :=
  kdRecvBufferAux_writes_lt stream 0 buffer0 []
    (fun j hj => absurd hj (List.not_mem_nil j)) i hi

theorem kd_c10_witness :
    0 ∈ (KdRecvBuffer kdC3SampleStream (fun _ => 0)).writesOf ∧ 0 < MaxSerialPacketSize :=
  ⟨by decide, kd_c10_recv_write_bounds kdC3SampleStream (fun _ => 0) 0 (by decide)⟩

/-! ## Core switching (`KdSwitchCore`, Kd.c 752-812, and the CHANGE_CORE case
of `KdDispatchAndPerformCommandsFromDebugger`, Kd.c 1368-1422)

The reply status constants (`DEBUGEER_OPERATION_WAS_SUCCESSFULL`,
`DEBUGGER_ERROR_PREPARING_DEBUGGEE_INVALID_CORE_IN_REMOTE_DEBUGGE`, ...) are
numeric codes defined outside `src/`; they are modelled as an inductive type
since only their distinctness matters. -/

inductive KdResultCode where
  | success
  | invalidCoreInRemoteDebuggee
  | unableToSwitchToNewProcess
  | invalidRegisterNumber
deriving DecidableEq

/-- The observable actions of the change-core dispatch path, in program
order: the two `CurrentOperatingCore` writes of `KdSwitchCore` (Kd.c 797 and
802), the result reply sent through `KdResponsePacketToDebugger`
(Kd.c 1408-1411), and a `SpinlockUnlock` of a core's per-core
`DebuggingState.Lock` (Kd.c 1419). -/
inductive DispatchEvent where
  | clearOperatingCore (core : Nat)
  | setOperatingCore (core : Nat)
  | sendReply (result : KdResultCode)
  | unlockCore (core : Nat)
deriving DecidableEq

/-- The per-core debugging state touched by the change-core path, as parallel
per-core lists: `CurrentOperatingCore`, `EnableInterruptFlagOnContinue`, the
per-core `Lock`, and the guest `RFLAGS.IF` bit of each core's VMCS (written
by the `__vmx_vmwrite(GUEST_RFLAGS, ...)` at Kd.c 786). -/
structure KdDebuggingState where
  CurrentOperatingCore : List Bool
  EnableInterruptFlagOnContinue : List Bool
  Lock : List Bool
  GuestIF : List Bool
deriving DecidableEq

/-- `KdSwitchCore` (Kd.c 752-812): validate `NewCore < CoreCount` first and
return FALSE with nothing changed on failure; otherwise restore the guest
interrupt flag if `EnableInterruptFlagOnContinue` was set for the current
core (Kd.c 778-789), clear the current core's `CurrentOperatingCore`
(Kd.c 797), set the new core's (Kd.c 802), and return TRUE.  The new core's
lock is deliberately NOT unlocked here (Kd.c 805-809). -/
def KdSwitchCore (st : KdDebuggingState) (CurrentCore NewCore CoreCount : Nat) :
    Bool × KdDebuggingState × List DispatchEvent :=
  if CoreCount ≤ NewCore then
    (false, st, [])
  else
    let st1 :=
      if st.EnableInterruptFlagOnContinue.getD CurrentCore false then
        { st with
          GuestIF := st.GuestIF.set CurrentCore true,
          EnableInterruptFlagOnContinue :=
            st.EnableInterruptFlagOnContinue.set CurrentCore false }
      else st
    let st2 := { st1 with
      CurrentOperatingCore := st1.CurrentOperatingCore.set CurrentCore false }
    let st3 := { st2 with
      CurrentOperatingCore := st2.CurrentOperatingCore.set NewCore true }
    (true, st3, [.clearOperatingCore CurrentCore, .setOperatingCore NewCore])

/-- The `DEBUGGER_REMOTE_PACKET_REQUESTED_ACTION_ON_VMX_ROOT_MODE_CHANGE_CORE`
case of the dispatcher (Kd.c 1368-1422): if the target differs from the
current core, call `KdSwitchCore`; set `ChangeCorePacket->Result`
accordingly; send the result reply; and only then, if the switch succeeded
(`UnlockTheNewCore`), unlock the NEW core's per-core lock. -/
def KdDispatchChangeCore (st : KdDebuggingState) (CurrentCore NewCore CoreCount : Nat) :
    KdDebuggingState × List DispatchEvent :=
  if CurrentCore ≠ NewCore then
    let r := KdSwitchCore st CurrentCore NewCore CoreCount
    if r.1 then
      ({ r.2.1 with Lock := r.2.1.Lock.set NewCore false },
        r.2.2 ++ [.sendReply .success, .unlockCore NewCore])
    else
      (r.2.1, r.2.2 ++ [.sendReply .invalidCoreInRemoteDebuggee])
  else
    (st, [.sendReply .success])

/-- A concrete two-core state: core 0 is operating and both cores' locks are
held. -/
def kdC4SampleState : KdDebuggingState :=
  { CurrentOperatingCore := [true, false],
    EnableInterruptFlagOnContinue := [false, false],
    Lock := [true, true],
    GuestIF := [false, false] }

/-- C4 counterexample: on a successful change-core command from core 0 to
core 1 (2 active cores), the dispatcher never releases the PREVIOUS core's
(core 0's) per-core lock: the only lock released in the whole path is the
NEW core's (core 1's), at Kd.c 1419, after the reply. -/
theorem kd_c4_counterexample :
    DispatchEvent.unlockCore 0 ∉ (KdDispatchChangeCore kdC4SampleState 0 1 2).2 ∧
    DispatchEvent.unlockCore 1 ∈ (KdDispatchChangeCore kdC4SampleState 0 1 2).2 := by
  constructor <;> decide

/-- C4 (amended): for every successful change-core command (valid target
different from the current operating core) the dispatcher first flips the
two operating flags, then sends the result reply, and only after the reply
does it unlock the NEW (target) core's per-core lock; no per-core lock is
released between the flag flip and the completion of the reply send, and the
previous core's lock is never released by this path. -/
theorem kd_c4_change_core_order (st : KdDebuggingState)
    (CurrentCore NewCore CoreCount : Nat)
    (hvalid : NewCore < CoreCount) (hne : CurrentCore ≠ NewCore) :
    (KdDispatchChangeCore st CurrentCore NewCore CoreCount).2 =
      [.clearOperatingCore CurrentCore, .setOperatingCore NewCore,
        .sendReply .success, .unlockCore NewCore] := by
  have hle : ¬ CoreCount ≤ NewCore := by omega
  by_cases hif : st.EnableInterruptFlagOnContinue.getD CurrentCore false = true
  · simp [KdDispatchChangeCore, KdSwitchCore, hne, hle, hif]
  · simp [KdDispatchChangeCore, KdSwitchCore, hne, hle, hif]

theorem kd_c4_witness :
    (1 : Nat) < 2 ∧ (0 : Nat) ≠ 1 ∧
    (KdDispatchChangeCore kdC4SampleState 0 1 2).2 =
      [.clearOperatingCore 0, .setOperatingCore 1,
        .sendReply .success, .unlockCore 1] :=
  ⟨by decide, by decide, kd_c4_change_core_order kdC4SampleState 0 1 2 (by decide) (by decide)⟩

/-- C5: a change-core request whose target core id is `>=` the active core
count makes `KdSwitchCore` return FALSE with every piece of debugging state
(operating flags, per-core locks, interrupt-restoration flags, guest IF)
unchanged and makes the dispatcher reply with the invalid-core error code;
and a request whose target equals the current operating core changes no
state and replies success without calling `KdSwitchCore` at all. -/
theorem kd_c5_switch_core_validation :
    (∀ (st : KdDebuggingState) (CurrentCore NewCore CoreCount : Nat),
        CoreCount ≤ NewCore →
        KdSwitchCore st CurrentCore NewCore CoreCount = (false, st, []))
    ∧ (∀ (st : KdDebuggingState) (CurrentCore NewCore CoreCount : Nat),
        CoreCount ≤ NewCore → CurrentCore ≠ NewCore →
        KdDispatchChangeCore st CurrentCore NewCore CoreCount =
          (st, [.sendReply .invalidCoreInRemoteDebuggee]))
    ∧ (∀ (st : KdDebuggingState) (CurrentCore CoreCount : Nat),
        KdDispatchChangeCore st CurrentCore CurrentCore CoreCount =
          (st, [.sendReply .success])) := by
  refine ⟨?_, ?_, ?_⟩
  · intro st CurrentCore NewCore CoreCount hbad
    unfold KdSwitchCore
    rw [if_pos hbad]
  · intro st CurrentCore NewCore CoreCount hbad hne
    unfold KdDispatchChangeCore
    rw [if_pos hne]
    unfold KdSwitchCore
    rw [if_pos hbad]
    simp
  · intro st CurrentCore CoreCount
    unfold KdDispatchChangeCore
    simp

theorem kd_c5_witness :
    ((2 : Nat) ≤ 5 ∧ KdSwitchCore kdC4SampleState 0 5 2 = (false, kdC4SampleState, [])) ∧
    ((2 : Nat) ≤ 5 ∧ (0 : Nat) ≠ 5 ∧
      KdDispatchChangeCore kdC4SampleState 0 5 2 =
        (kdC4SampleState, [.sendReply .invalidCoreInRemoteDebuggee])) ∧
    KdDispatchChangeCore kdC4SampleState 0 0 2 =
      (kdC4SampleState, [.sendReply .success]) :=
  ⟨⟨by decide, kd_c5_switch_core_validation.1 kdC4SampleState 0 5 2 (by decide)⟩,
    ⟨by decide, by decide,
      kd_c5_switch_core_validation.2.1 kdC4SampleState 0 5 2 (by decide) (by decide)⟩,
    kd_c5_switch_core_validation.2.2 kdC4SampleState 0 2⟩

/-! ## Register reading (`KdReadRegisters`, Kd.c 632-743, and the
READ_REGISTERS case of the dispatcher, Kd.c 1443-1475)

The register id constants (`DEBUGGEE_SHOW_ALL_REGISTERS`, `REGISTER_RAX`,
...) are numeric codes defined outside `src/`; they are modelled as an
inductive type mirroring exactly the `case` labels of the `switch` in
`KdReadRegisters`, with `unknownRegister` standing for every id that reaches
the `default` label. -/

inductive KdRegister where
  | showAllRegisters
  | rax | rbx | rcx | rdx | rsi | rdi | rbp | rsp
  | r8 | r9 | r10 | r11 | r12 | r13 | r14 | r15
  | ds | es | fs | gs | cs | ss | eflags | rip
  | unknownRegister (code : Nat)
deriving DecidableEq

/-- The live general-purpose register snapshot (`GUEST_REGS`, defined outside
`src/`; modelled from the spec's "full register file" with the sixteen GPRs
read by the `switch` cases of `KdReadRegisters`). -/
structure GUEST_REGS where
  rax : Nat
  rbx : Nat
  rcx : Nat
  rdx : Nat
  rsi : Nat
  rdi : Nat
  rbp : Nat
  rsp : Nat
  r8 : Nat
  r9 : Nat
  r10 : Nat
  r11 : Nat
  r12 : Nat
  r13 : Nat
  r14 : Nat
  r15 : Nat
deriving DecidableEq

/-- The register-read request/reply description.  `copiedRegs` models the
`memcpy` of the full `GUEST_REGS` into the bytes directly after the
description (Kd.c 638-640). -/
structure DEBUGGEE_REGISTER_READ_DESCRIPTION where
  RegisterID : KdRegister
  Value : Nat
  KernelStatus : KdResultCode
  copiedRegs : Option GUEST_REGS
deriving DecidableEq

/-- `KdReadRegisters` (Kd.c 632-743).  Every `case` is modelled one-to-one
with the source, including the `REGISTER_R11` case (Kd.c 687-688), which has
no `break` and therefore falls through into the `REGISTER_R12` case
(Kd.c 690-692): the request's `Value` is first assigned `Regs->r11` and then
immediately overwritten with `Regs->r12`.  The segment/flag/instruction
pointer cases assign 0 as in the source (Kd.c 706-736); the `default` case
returns FALSE without touching the request. -/
def KdReadRegisters (Regs : GUEST_REGS) (req : DEBUGGEE_REGISTER_READ_DESCRIPTION) :
    Bool × DEBUGGEE_REGISTER_READ_DESCRIPTION :=
  match req.RegisterID with
  | .showAllRegisters => (true, { req with copiedRegs := some Regs })
  | .rax => (true, { req with Value := Regs.rax })
  | .rbx => (true, { req with Value := Regs.rbx })
  | .rcx => (true, { req with Value := Regs.rcx })
  | .rdx => (true, { req with Value := Regs.rdx })
  | .rsi => (true, { req with Value := Regs.rsi })
  | .rdi => (true, { req with Value := Regs.rdi })
  | .rbp => (true, { req with Value := Regs.rbp })
  | .rsp => (true, { req with Value := Regs.rsp })
  | .r8 => (true, { req with Value := Regs.r8 })
  | .r9 => (true, { req with Value := Regs.r9 })
  | .r10 => (true, { req with Value := Regs.r10 })
  | .r11 =>
      let req1 := { req with Value := Regs.r11 }
      (true, { req1 with Value := Regs.r12 })
  | .r12 => (true, { req with Value := Regs.r12 })
  | .r13 => (true, { req with Value := Regs.r13 })
  | .r14 => (true, { req with Value := Regs.r14 })
  | .r15 => (true, { req with Value := Regs.r15 })
  | .ds => (true, { req with Value := 0 })
  | .es => (true, { req with Value := 0 })
  | .fs => (true, { req with Value := 0 })
  | .gs => (true, { req with Value := 0 })
  | .cs => (true, { req with Value := 0 })
  | .ss => (true, { req with Value := 0 })
  | .eflags => (true, { req with Value := 0 })
  | .rip => (true, { req with Value := 0 })
  | .unknownRegister _ => (false, req)

/-- Modelled from the spec: the byte sizes of
`DEBUGGEE_REGISTER_READ_DESCRIPTION` and `GUEST_REGS` (structures defined
outside `src/`); the claims only constrain how the dispatcher combines them,
so the concrete values are irrelevant (16 GPRs of 8 bytes for the register
file). -/
def sizeof_DEBUGGEE_REGISTER_READ_DESCRIPTION : Nat := 24

def sizeof_GUEST_REGS : Nat := 128

/-- The `READ_REGISTERS` case of the dispatcher (Kd.c 1443-1475): perform the
read, set `KernelStatus` to success or invalid-register-number, and size the
reply to description-plus-register-file for the show-all id and to the bare
description otherwise. -/
def KdDispatchReadRegisters (Regs : GUEST_REGS) (req : DEBUGGEE_REGISTER_READ_DESCRIPTION) :
    DEBUGGEE_REGISTER_READ_DESCRIPTION × Nat :=
  let r := KdReadRegisters Regs req
  let req2 := { r.2 with
    KernelStatus := if r.1 then KdResultCode.success else KdResultCode.invalidRegisterNumber }
  (req2,
    if req2.RegisterID = .showAllRegisters then
      sizeof_DEBUGGEE_REGISTER_READ_DESCRIPTION + sizeof_GUEST_REGS
    else
      sizeof_DEBUGGEE_REGISTER_READ_DESCRIPTION)

/-- A register snapshot with pairwise distinct values. -/
def kdC6SampleRegs : GUEST_REGS :=
  { rax := 1, rbx := 2, rcx := 3, rdx := 4, rsi := 5, rdi := 6, rbp := 7, rsp := 8,
    r8 := 9, r9 := 10, r10 := 11, r11 := 12, r12 := 13, r13 := 14, r14 := 15, r15 := 16 }

/-- An empty read request for a given register id. -/
def kdC6Req (id : KdRegister) : DEBUGGEE_REGISTER_READ_DESCRIPTION :=
  { RegisterID := id, Value := 0, KernelStatus := .success, copiedRegs := none }

/-- C6 (failing input): requesting `REGISTER_R11` returns TRUE but copies
`Regs->r12` instead of the requested register's value, because the `R11`
case of the `switch` in `KdReadRegisters` lacks a `break` (Kd.c 687-692) and
falls through into the `R12` case.  On a snapshot where `r11 = 12` and
`r12 = 13` the reply's `Value` is 13, not 12.  The remaining conjuncts
record that the claim's other parts do hold: an unknown id returns FALSE and
the dispatcher replies with the invalid-register-number status, and the
show-all id sizes the reply to the description header plus the full register
file, with the full snapshot copied. -/
theorem kd_c6_r11_fallthrough :
    (KdReadRegisters kdC6SampleRegs (kdC6Req .r11) =
        (true, { kdC6Req .r11 with Value := kdC6SampleRegs.r12 }) ∧
      kdC6SampleRegs.r11 ≠ kdC6SampleRegs.r12) ∧
    (KdReadRegisters kdC6SampleRegs (kdC6Req (.unknownRegister 999)) =
        (false, kdC6Req (.unknownRegister 999)) ∧
      (KdDispatchReadRegisters kdC6SampleRegs (kdC6Req (.unknownRegister 999))).1.KernelStatus =
        KdResultCode.invalidRegisterNumber) ∧
    KdDispatchReadRegisters kdC6SampleRegs (kdC6Req .showAllRegisters) =
      ({ kdC6Req .showAllRegisters with copiedRegs := some kdC6SampleRegs },
        sizeof_DEBUGGEE_REGISTER_READ_DESCRIPTION + sizeof_GUEST_REGS) := by
  refine ⟨⟨?_, ?_⟩, ⟨?_, ?_⟩, ?_⟩ <;> decide

/-! ## Process switching (`KdSwitchProcess`, Kd.c 602-623, and
`KdSwitchToNewProcessDpc`, Kd.c 530-573) -/

/-- The change-process request/reply packet. -/
structure DEBUGGEE_CHANGE_PROCESS_PACKET where
  GetRemotePid : Bool
  ProcessId : Nat
  Result : KdResultCode
deriving DecidableEq

/-- Observable actions of the process-switch path: queueing the deferred
procedure call (`KdFireDpc`, Kd.c 617-619), and — inside the DPC — the
invalid-pid log + `DbgBreakPoint()` (Kd.c 554-559) or the
halt-and-change-CR3 vmcall followed by the process restore (Kd.c 567-572). -/
inductive ProcessSwitchEvent where
  | firedSwitchDpc (processId : Nat)
  | logInvalidPid
  | dbgBreakPoint
  | vmcallHaltAndChangeCr3 (cr3 : Nat)
  | restoreToPreviousProcess (cr3 : Nat)
deriving DecidableEq

/-- `KdSwitchProcess` (Kd.c 602-623): either report the current pid or queue
the address-space switch as a DPC; it performs no validation and returns
TRUE on every path (Kd.c 622). -/
def KdSwitchProcess (currentPid : Nat) (p : DEBUGGEE_CHANGE_PROCESS_PACKET) :
    Bool × DEBUGGEE_CHANGE_PROCESS_PACKET × List ProcessSwitchEvent :=
  if p.GetRemotePid then
    (true, { p with ProcessId := currentPid }, [])
  else
    (true, p, [.firedSwitchDpc p.ProcessId])

/-- `KdSwitchToNewProcessDpc` (Kd.c 530-573): `switchLayout` models the
external `SwitchOnAnotherProcessMemoryLayout` collaborator, returning `none`
(`CurrentProcessCr3.Flags == NULL`) for an invalid process id.  An invalid
pid is logged and signalled with `DbgBreakPoint()`; a valid pid triggers the
halt-and-change-CR3 vmcall and then restores the previous process. -/
def KdSwitchToNewProcessDpc (switchLayout : Nat → Option Nat) (pid : Nat) :
    List ProcessSwitchEvent :=
  match switchLayout pid with
  | none => [.logInvalidPid, .dbgBreakPoint]
  | some cr3 => [.vmcallHaltAndChangeCr3 cr3, .restoreToPreviousProcess cr3]

/-- The `CHANGE_PROCESS` case of the dispatcher (Kd.c 1477-1501): set
`ChangeProcessPacket->Result` from `KdSwitchProcess`'s return value and
reply. -/
def KdDispatchChangeProcess (currentPid : Nat) (p : DEBUGGEE_CHANGE_PROCESS_PACKET) :
    DEBUGGEE_CHANGE_PROCESS_PACKET × List ProcessSwitchEvent :=
  let r := KdSwitchProcess currentPid p
  ({ r.2.1 with
      Result := if r.1 then KdResultCode.success
        else KdResultCode.unableToSwitchToNewProcess },
    r.2.2)

/-- A change-process request asking to switch to pid 9999. -/
def kdC8SamplePacket : DEBUGGEE_CHANGE_PROCESS_PACKET :=
  { GetRemotePid := false, ProcessId := 9999, Result := .success }

/-- C8 counterexample: for a switch request carrying a process id that is
invalid (a `switchLayout` collaborator that knows no process), `KdSwitchProcess`
does NOT return a failure status — it returns TRUE and the dispatcher's reply
carries the success code, not the unable-to-switch error code.  The failure
is instead detected inside the deferred `KdSwitchToNewProcessDpc`, which
signals it by triggering a breakpoint in the target (`DbgBreakPoint()`,
Kd.c 559). -/
theorem kd_c8_counterexample :
    (KdSwitchProcess 4 kdC8SamplePacket).1 = true ∧
    (KdDispatchChangeProcess 4 kdC8SamplePacket).1.Result = KdResultCode.success ∧
    KdResultCode.success ≠ KdResultCode.unableToSwitchToNewProcess ∧
    KdSwitchToNewProcessDpc (fun _ => none) 9999 =
      [.logInvalidPid, .dbgBreakPoint] := by
  refine ⟨?_, ?_, ?_, ?_⟩ <;> decide

/-- C8 (amended): `KdSwitchProcess` returns TRUE for every request, so the
dispatcher's change-process reply always carries the success code; an
invalid process id is only detected later, inside the deferred
`KdSwitchToNewProcessDpc`, which reports the failure by logging and
triggering a debug breakpoint (to be handled by the debugger), never through
the reply's result code. -/
theorem kd_c8_switch_process_amended :
    (∀ (currentPid : Nat) (p : DEBUGGEE_CHANGE_PROCESS_PACKET),
        (KdSwitchProcess currentPid p).1 = true ∧
        (KdDispatchChangeProcess currentPid p).1.Result = KdResultCode.success)
    ∧ (∀ (switchLayout : Nat → Option Nat) (pid : Nat),
        switchLayout pid = none →
        KdSwitchToNewProcessDpc switchLayout pid = [.logInvalidPid, .dbgBreakPoint]) := by
  constructor
  · intro currentPid p
    unfold KdSwitchProcess KdDispatchChangeProcess KdSwitchProcess
    by_cases h : p.GetRemotePid = true
    · simp [h]
    · simp [h]
  · intro switchLayout pid h
    unfold KdSwitchToNewProcessDpc
    rw [h]

theorem kd_c8_witness :
    ((KdSwitchProcess 4 kdC8SamplePacket).1 = true ∧
      (KdDispatchChangeProcess 4 kdC8SamplePacket).1.Result = KdResultCode.success) ∧
    ((fun _ : Nat => (none : Option Nat)) 77 = none ∧
      KdSwitchToNewProcessDpc (fun _ => none) 77 = [.logInvalidPid, .dbgBreakPoint]) :=
  ⟨kd_c8_switch_process_amended.1 4 kdC8SamplePacket,
    ⟨rfl, kd_c8_switch_process_amended.2 (fun _ => none) 77 rfl⟩⟩

/-! ## Dispatcher iteration control flow
(`KdDispatchAndPerformCommandsFromDebugger`, Kd.c 1266-1650)

Modelled from the spec: the indicator constant
`INDICATOR_OF_HYPERDBG_PACKER` and the numeric values of the
`DEBUGGER_REMOTE_PACKET_TYPE` enum are defined outside `src/`; only equality
against them matters here. -/

def INDICATOR_OF_HYPERDBG_PACKER : Nat := 0x4859504552444247

def DEBUGGER_REMOTE_PACKET_TYPE_DEBUGGER_TO_DEBUGGEE_EXECUTE_ON_VMX_ROOT : Nat := 1

def DEBUGGER_REMOTE_PACKET_TYPE_DEBUGGEE_TO_DEBUGGER : Nat := 2

/-- What one iteration of the dispatcher's receive loop does with a received
buffer: retry on a failed receive (Kd.c 1277-1283), retry on a checksum
mismatch (Kd.c 1290-1296), enter the action `switch` (Kd.c 1314) — recording
whether the wrong-packet-type error was logged on the way (Kd.c 1301-1309) —
or treat the buffer as a foreign (GDB) frame and trigger a debug break
(Kd.c 1635-1641). -/
inductive KdIterationOutcome where
  | retryInvalidBuffer
  | retryInvalidChecksum
  | dispatched (action : Nat) (wrongTypeLogged : Bool)
  | foreignPacketDbgBreak
deriving DecidableEq

/-- One iteration of the receive loop of
`KdDispatchAndPerformCommandsFromDebugger` (Kd.c 1266-1650), over the
received packet's header fields and the recomputed checksum.  Note the
wrong-packet-type branch (Kd.c 1301-1309) only calls `LogError` and falls
straight through to the `switch` on the requested action. -/
def KdDispatchIteration (recvOk : Bool)
    (indicator typeOfThePacket requestedAction storedChecksum computedChecksum : Nat) :
    KdIterationOutcome :=
  if recvOk = false then
    .retryInvalidBuffer
  else if indicator = INDICATOR_OF_HYPERDBG_PACKER then
    if computedChecksum ≠ storedChecksum then
      .retryInvalidChecksum
    else
      .dispatched requestedAction
        (typeOfThePacket != DEBUGGER_REMOTE_PACKET_TYPE_DEBUGGER_TO_DEBUGGEE_EXECUTE_ON_VMX_ROOT)
  else
    .foreignPacketDbgBreak

/-- C9: a received buffer whose indicator and checksum are valid is
dispatched — the `switch` on the requested action runs — even when the
packet's type field is not the debugger-to-debuggee-execute type: the wrong
type is only logged (`wrongTypeLogged = true`) and neither discards the
packet nor skips dispatch. -/
theorem kd_c9_wrong_type_still_dispatched
    (typeOfThePacket requestedAction checksum : Nat)
    (hwrong : typeOfThePacket ≠ DEBUGGER_REMOTE_PACKET_TYPE_DEBUGGER_TO_DEBUGGEE_EXECUTE_ON_VMX_ROOT) :
    KdDispatchIteration true INDICATOR_OF_HYPERDBG_PACKER typeOfThePacket
        requestedAction checksum checksum =
      .dispatched requestedAction true := by
  unfold KdDispatchIteration
  rw [if_neg (by simp), if_pos rfl, if_neg (by simp)]
  simp [hwrong]

theorem kd_c9_witness :
    (DEBUGGER_REMOTE_PACKET_TYPE_DEBUGGEE_TO_DEBUGGER ≠
      DEBUGGER_REMOTE_PACKET_TYPE_DEBUGGER_TO_DEBUGGEE_EXECUTE_ON_VMX_ROOT) ∧
    KdDispatchIteration true INDICATOR_OF_HYPERDBG_PACKER
        DEBUGGER_REMOTE_PACKET_TYPE_DEBUGGEE_TO_DEBUGGER 3 0x42 0x42 =
      .dispatched 3 true :=
  ⟨by decide,
    kd_c9_wrong_type_still_dispatched
      DEBUGGER_REMOTE_PACKET_TYPE_DEBUGGEE_TO_DEBUGGER 3 0x42 (by decide)⟩

/-! ## The breakpoint/event entry point
(`KdHandleBreakpointAndDebugBreakpoints`, Kd.c 899-985) -/

/-- The global state read and written by the entry point: the suppression
request `g_IgnoreBreaksToDebugger` (its flag and special-event response),
the global halt context (`g_DebuggeeHaltReason`, `g_DebuggeeHaltContext`,
`g_DebuggeeHaltTag`), the per-core locks, and the per-core
`DoNotNmiNotifyOtherCoresByThisCore` flags.  The halt reason is a numeric
code with 0 standing for `DEBUGGEE_PAUSING_REASON_NOT_PAUSED`. -/
structure KdGlobalState where
  PauseBreaksUntilASpecialMessageSent : Bool
  SpeialEventResponse : Nat
  DebuggeeHaltReason : Nat
  DebuggeeHaltContext : Option Nat
  DebuggeeHaltTag : Option Nat
  CoreLocks : List Bool
  DoNotNmiNotifyOtherCoresByThisCore : List Bool
deriving DecidableEq

/-- Observable actions of the entry point, in program order. -/
inductive HaltEntryEvent where
  | lockDebuggerHandleBreakpointLock
  | unlockDebuggerHandleBreakpointLock
  | lockCurrentCore (core : Nat)
  | publishHaltReason (reason : Nat)
  | publishHaltContextAndTag (context tag : Nat)
  | lockResponse
  | triggerNmiFanout (fromCore : Nat)
  | unlockResponse
  | clearDoNotNmiNotify (core : Nat)
  | manageSystemHaltOnVmxRoot (core : Nat) (mainCore : Bool)
  | clearHaltReason
  | clearHaltContextAndTag
deriving DecidableEq

/-- `KdHandleBreakpointAndDebugBreakpoints` (Kd.c 899-985): take the global
breakpoint lock; if the suppression request
`g_IgnoreBreaksToDebugger.PauseBreaksUntilASpecialMessageSent` is pending,
release the lock and return immediately (Kd.c 913-921) with nothing else
done.  Otherwise lock the calling core, publish the halt reason and (when
event details are present) the context and tag, trigger the NMI fan-out
under the response lock unless `DoNotNmiNotifyOtherCoresByThisCore` is set
(in which case that flag is cleared instead), enter
`KdManageSystemHaltOnVmxRoot` with `MainCore = TRUE`, then clear the halt
context and release the breakpoint lock. -/
def KdHandleBreakpointAndDebugBreakpoints (st : KdGlobalState) (core reason : Nat)
    (eventDetails : Option (Nat × Nat)) : KdGlobalState × List HaltEntryEvent :=
  if st.PauseBreaksUntilASpecialMessageSent then
    (st, [.lockDebuggerHandleBreakpointLock, .unlockDebuggerHandleBreakpointLock])
  else
    let st1 := { st with CoreLocks := st.CoreLocks.set core true,
                         DebuggeeHaltReason := reason }
    let st2 := match eventDetails with
      | some (ctx, tag) =>
          { st1 with DebuggeeHaltContext := some ctx, DebuggeeHaltTag := some tag }
      | none => st1
    let nmiEvents :=
      if st2.DoNotNmiNotifyOtherCoresByThisCore.getD core false then
        [HaltEntryEvent.clearDoNotNmiNotify core]
      else
        [HaltEntryEvent.lockResponse, HaltEntryEvent.triggerNmiFanout core,
          HaltEntryEvent.unlockResponse]
    let st3 :=
      if st2.DoNotNmiNotifyOtherCoresByThisCore.getD core false then
        { st2 with DoNotNmiNotifyOtherCoresByThisCore :=
            st2.DoNotNmiNotifyOtherCoresByThisCore.set core false }
      else st2
    let st4 := { st3 with DebuggeeHaltReason := 0,
                          DebuggeeHaltContext := none, DebuggeeHaltTag := none }
    (st4,
      [.lockDebuggerHandleBreakpointLock, .lockCurrentCore core, .publishHaltReason reason] ++
        (match eventDetails with
          | some (ctx, tag) => [HaltEntryEvent.publishHaltContextAndTag ctx tag]
          | none => []) ++
        nmiEvents ++
        [.manageSystemHaltOnVmxRoot core true, .clearHaltReason, .clearHaltContextAndTag,
          .unlockDebuggerHandleBreakpointLock])

/-- C7: whenever the global suppression request is pending, the entry point
returns immediately after releasing the breakpoint lock: the state is
unchanged and it never takes the calling core's own lock, never publishes a
halt reason/context/tag, never triggers the NMI fan-out, and never enters
the halt coordinator. -/
theorem kd_c7_suppression_early_return (st : KdGlobalState) (core reason : Nat)
    (eventDetails : Option (Nat × Nat))
    (h : st.PauseBreaksUntilASpecialMessageSent = true) :
    KdHandleBreakpointAndDebugBreakpoints st core reason eventDetails =
      (st, [.lockDebuggerHandleBreakpointLock, .unlockDebuggerHandleBreakpointLock]) ∧
    (∀ c, HaltEntryEvent.lockCurrentCore c ∉
      (KdHandleBreakpointAndDebugBreakpoints st core reason eventDetails).2) ∧
    (∀ r, HaltEntryEvent.publishHaltReason r ∉
      (KdHandleBreakpointAndDebugBreakpoints st core reason eventDetails).2) ∧
    (∀ ctx tag, HaltEntryEvent.publishHaltContextAndTag ctx tag ∉
      (KdHandleBreakpointAndDebugBreakpoints st core reason eventDetails).2) ∧
    (∀ c, HaltEntryEvent.triggerNmiFanout c ∉
      (KdHandleBreakpointAndDebugBreakpoints st core reason eventDetails).2) ∧
    (∀ c b, HaltEntryEvent.manageSystemHaltOnVmxRoot c b ∉
      (KdHandleBreakpointAndDebugBreakpoints st core reason eventDetails).2) := by
  have he : KdHandleBreakpointAndDebugBreakpoints st core reason eventDetails =
      (st, [.lockDebuggerHandleBreakpointLock, .unlockDebuggerHandleBreakpointLock]) := by
    unfold KdHandleBreakpointAndDebugBreakpoints
    rw [if_pos h]
  refine ⟨he, ?_, ?_, ?_, ?_, ?_⟩
  · intro c
    rw [he]
    simp
  · intro r
    rw [he]
    simp
  · intro ctx tag
    rw [he]
    simp
  · intro c
    rw [he]
    simp
  · intro c b
    rw [he]
    simp

/-- A suppressed state for the C7 witness. -/
def kdC7SuppressedState : KdGlobalState :=
  { PauseBreaksUntilASpecialMessageSent := true, SpeialEventResponse := 5,
    DebuggeeHaltReason := 0, DebuggeeHaltContext := none, DebuggeeHaltTag := none,
    CoreLocks := [false, false], DoNotNmiNotifyOtherCoresByThisCore := [false, false] }

theorem kd_c7_witness :
    kdC7SuppressedState.PauseBreaksUntilASpecialMessageSent = true ∧
    KdHandleBreakpointAndDebugBreakpoints kdC7SuppressedState 0 3 (some (11, 22)) =
      (kdC7SuppressedState,
        [.lockDebuggerHandleBreakpointLock, .unlockDebuggerHandleBreakpointLock]) :=
  ⟨rfl, (kd_c7_suppression_early_return kdC7SuppressedState 0 3 (some (11, 22)) rfl).1⟩

/-! ## The cross-core halt coordinator as a transition system (C1)

The events of the claim — trap entries, change-core commands, takeovers by a
waiting core, and continue commands — are the atomic transitions, each one
collecting the state updates the corresponding code path performs on the
per-core array (`g_GuestState[i].DebuggingState`) and on the global
breakpoint lock.  A core is `running` (normal guest execution), `waiting`
(parked spinning on its own per-core lock at Kd.c 1768), or `operating`
(inside the dispatcher on the `MainCore` branch of
`KdManageSystemHaltOnVmxRoot`, Kd.c 1678-1757). -/

inductive CoreMode where
  | running
  | waiting
  | operating
deriving DecidableEq

/-- Global coordinator state: per-core mode, per-core `CurrentOperatingCore`
flag, per-core `DebuggingState.Lock`, and the holder of the global
`DebuggerHandleBreakpointLock` (the core that entered
`KdHandleBreakpointAndDebugBreakpoints` for the current halt episode). -/
structure KdSystem where
  mode : Nat → CoreMode
  opFlag : Nat → Bool
  lockHeld : Nat → Bool
  bpOwner : Option Nat

/-- All cores running, no flags, no locks: the state after activation. -/
def kdSystemInit : KdSystem :=
  { mode := fun _ => .running, opFlag := fun _ => false,
    lockHeld := fun _ => false, bpOwner := none }

/-- The atomic events of the halt coordinator, on a machine of `n` cores.

* `trap c`: `KdHandleBreakpointAndDebugBreakpoints` (Kd.c 899-968) on core
  `c` — acquire the free breakpoint lock, lock the own core (Kd.c 926), and
  enter `KdManageSystemHaltOnVmxRoot` with `MainCore = TRUE`, which marks the
  core as current operating core (Kd.c 1688).  A trap that finds the
  breakpoint lock held simply spins and is modelled by the event firing once
  the lock is free.
* `nmiPark c`: `KdHandleNmi` (Kd.c 1031-1045) — the NMI-interrupted core
  locks its own lock and blocks in the non-main branch of
  `KdManageSystemHaltOnVmxRoot` (Kd.c 1768).
* `switchCore c t`: the successful CHANGE_CORE dispatch on operating core `c`
  (Kd.c 1368-1422 with `KdSwitchCore`, Kd.c 791-811): clear `c`'s operating
  flag, set `t`'s, unlock `t`'s per-core lock after the reply, and re-enter
  the wait loop on `c` (Kd.c 1742-1749: `MainCore = FALSE`, `goto StartAgain`).
* `takeover t`: a parked core whose lock was released observes that its
  operating flag became true (Kd.c 1773-1782) and re-enters the main branch
  holding its own lock, setting its (already set) operating flag (Kd.c 1688).
* `wakeup c`: a parked core whose lock was released observes its operating
  flag is false, releases its own lock and returns (Kd.c 1784); if it was
  the trap core of the episode, it also releases the breakpoint lock on the
  way out (Kd.c 984).
* `continueAll c`: a continue-class action on the operating core
  (`KdContinueDebuggee`, Kd.c 438-479): unlock every core's lock, then clear
  the own operating flag on the way out of the coordinator (Kd.c 1755),
  releasing the breakpoint lock if `c` was the trap core.
* `continueCurrentCore c`: the step action
  (`KdContinueDebuggeeJustCurrentCore`, Kd.c 486-499): unlock only the own
  lock, then clear the own operating flag on the way out. -/
inductive KdStep (n : Nat) : KdSystem → KdSystem → Prop where
  | trap (s : KdSystem) (c : Nat) (hc : c < n)
      (hmode : s.mode c = .running) (hbp : s.bpOwner = none) :
      KdStep n s
        { mode := Function.update s.mode c .operating,
          opFlag := Function.update s.opFlag c true,
          lockHeld := Function.update s.lockHeld c true,
          bpOwner := some c }
  | nmiPark (s : KdSystem) (c : Nat) (hc : c < n)
      (hmode : s.mode c = .running) :
      KdStep n s
        { s with mode := Function.update s.mode c .waiting,
                 lockHeld := Function.update s.lockHeld c true }
  | switchCore (s : KdSystem) (c t : Nat) (hc : c < n) (ht : t < n) (hne : t ≠ c)
      (hmode : s.mode c = .operating) :
      KdStep n s
        { mode := Function.update s.mode c .waiting,
          opFlag := Function.update (Function.update s.opFlag c false) t true,
          lockHeld := Function.update s.lockHeld t false,
          bpOwner := s.bpOwner }
  | takeover (s : KdSystem) (t : Nat) (ht : t < n)
      (hmode : s.mode t = .waiting) (hlock : s.lockHeld t = false)
      (hflag : s.opFlag t = true) :
      KdStep n s
        { s with mode := Function.update s.mode t .operating,
                 opFlag := Function.update s.opFlag t true,
                 lockHeld := Function.update s.lockHeld t true }
  | wakeup (s : KdSystem) (c : Nat) (hc : c < n)
      (hmode : s.mode c = .waiting) (hlock : s.lockHeld c = false)
      (hflag : s.opFlag c = false) :
      KdStep n s
        { s with mode := Function.update s.mode c .running,
                 bpOwner := if s.bpOwner = some c then none else s.bpOwner }
  | continueAll (s : KdSystem) (c : Nat) (hc : c < n)
      (hmode : s.mode c = .operating) :
      KdStep n s
        { mode := Function.update s.mode c .running,
          opFlag := Function.update s.opFlag c false,
          lockHeld := fun i => if i < n then false else s.lockHeld i,
          bpOwner := if s.bpOwner = some c then none else s.bpOwner }
  | continueCurrentCore (s : KdSystem) (c : Nat) (hc : c < n)
      (hmode : s.mode c = .operating) :
      KdStep n s
        { mode := Function.update s.mode c .running,
          opFlag := Function.update s.opFlag c false,
          lockHeld := Function.update s.lockHeld c false,
          bpOwner := if s.bpOwner = some c then none else s.bpOwner }

inductive KdReachable (n : Nat) : KdSystem → Prop where
  | base : KdReachable n kdSystemInit
  | step {s s' : KdSystem} : KdReachable n s → KdStep n s s' → KdReachable n s'

/-- The inductive invariant: (1) at most one operating flag is set; (2) the
breakpoint lock free means no flag is set; (3) an operating core holds its
flag; (4) if the episode owner is parked with its lock free and its flag
clear (the post-continue window), every flag is clear; (5) the episode owner
is never `running`; (6) an operating core holds its own per-core lock. -/
def KdSysInv (s : KdSystem) : Prop :=
  (∀ i j, s.opFlag i = true → s.opFlag j = true → i = j) ∧
  (s.bpOwner = none → ∀ i, s.opFlag i = false) ∧
  (∀ c, s.mode c = .operating → s.opFlag c = true) ∧
  (∀ o, s.bpOwner = some o → s.mode o = .waiting → s.lockHeld o = false →
    s.opFlag o = false → ∀ i, s.opFlag i = false) ∧
  (∀ o, s.bpOwner = some o → s.mode o = .operating ∨ s.mode o = .waiting) ∧
  (∀ c, s.mode c = .operating → s.lockHeld c = true)

theorem kdSysInv_init : KdSysInv kdSystemInit := by
  refine ⟨?_, ?_, ?_, ?_, ?_, ?_⟩
  · intro i j hi _
    cases hi
  · intro _ i
    rfl
  · intro c h
    cases h
  · intro o ho
    cases ho
  · intro o ho
    cases ho
  · intro c h
    cases h

theorem kdSysInv_step {n : Nat} {s s' : KdSystem}
    (hinv : KdSysInv s) (hstep : KdStep n s s') : KdSysInv s' := by
  obtain ⟨hP1, hP2, hP3, hE, hF, hG⟩ := hinv
  cases hstep with
  | trap c hc hmode hbp =>
      dsimp only [KdSysInv]
      have hall : ∀ i, s.opFlag i = false := hP2 hbp
      refine ⟨?_, ?_, ?_, ?_, ?_, ?_⟩
      · intro i j hi hj
        by_cases hic : i = c
        · by_cases hjc : j = c
          · rw [hic, hjc]
          · rw [Function.update_noteq hjc, hall j] at hj
            cases hj
        · rw [Function.update_noteq hic, hall i] at hi
          cases hi
      · intro hnone
        cases hnone
      · intro d hd
        by_cases hdc : d = c
        · rw [hdc, Function.update_same]
        · rw [Function.update_noteq hdc] at hd
          have hfd := hP3 d hd
          rw [hall d] at hfd
          cases hfd
      · intro o ho hw _ _
        injection ho with hoc
        rw [← hoc, Function.update_same] at hw
        cases hw
      · intro o ho
        injection ho with hoc
        rw [← hoc, Function.update_same]
        exact Or.inl rfl
      · intro d hd
        by_cases hdc : d = c
        · rw [hdc, Function.update_same]
        · rw [Function.update_noteq hdc] at hd
          have hfd := hP3 d hd
          rw [hall d] at hfd
          cases hfd
  | nmiPark c hc hmode =>
      dsimp only [KdSysInv]
      have hbc : ∀ o, s.bpOwner = some o → o ≠ c := by
        intro o ho hoc
        rcases hF o ho with h | h <;> rw [hoc, hmode] at h <;> cases h
      refine ⟨hP1, hP2, ?_, ?_, ?_, ?_⟩
      · intro d hd
        by_cases hdc : d = c
        · rw [hdc, Function.update_same] at hd
          cases hd
        · rw [Function.update_noteq hdc] at hd
          exact hP3 d hd
      · intro o ho hw hl hf
        have hoc := hbc o ho
        rw [Function.update_noteq hoc] at hw
        rw [Function.update_noteq hoc] at hl
        exact hE o ho hw hl hf
      · intro o ho
        have hoc := hbc o ho
        rw [Function.update_noteq hoc]
        exact hF o ho
      · intro d hd
        by_cases hdc : d = c
        · rw [hdc, Function.update_same] at hd
          cases hd
        · rw [Function.update_noteq hdc] at hd
          rw [Function.update_noteq hdc]
          exact hG d hd
  | switchCore c t hc ht hne hmode =>
      dsimp only [KdSysInv]
      have hflagc : s.opFlag c = true := hP3 c hmode
      have honly : ∀ i, s.opFlag i = true → i = c := fun i hi => hP1 i c hi hflagc
      have key : ∀ x, Function.update (Function.update s.opFlag c false) t true x = true →
          x = t := by
        intro x hx
        by_cases hxt : x = t
        · exact hxt
        · rw [Function.update_noteq hxt] at hx
          by_cases hxc : x = c
          · rw [hxc, Function.update_same] at hx
            cases hx
          · rw [Function.update_noteq hxc] at hx
            exact absurd (honly x hx) hxc
      refine ⟨?_, ?_, ?_, ?_, ?_, ?_⟩
      · intro i j hi hj
        rw [key i hi, key j hj]
      · intro hnone
        have hfc := hP2 hnone c
        rw [hflagc] at hfc
        cases hfc
      · intro d hd
        by_cases hdc : d = c
        · rw [hdc, Function.update_same] at hd
          cases hd
        · rw [Function.update_noteq hdc] at hd
          exact absurd (honly d (hP3 d hd)) hdc
      · intro o ho hw hl hf
        by_cases hot : o = t
        · rw [hot, Function.update_same] at hf
          cases hf
        · by_cases hoc : o = c
          · rw [Function.update_noteq (by rw [hoc]; exact fun h => hne h.symm), hoc] at hl
            have := hG c hmode
            rw [hl] at this
            cases this
          · rw [Function.update_noteq hoc] at hw
            rw [Function.update_noteq hot] at hl
            rw [Function.update_noteq hot, Function.update_noteq hoc] at hf
            have hall := hE o ho hw hl hf
            have := hall c
            rw [hflagc] at this
            cases this
      · intro o ho
        by_cases hoc : o = c
        · rw [hoc, Function.update_same]
          exact Or.inr rfl
        · rw [Function.update_noteq hoc]
          exact hF o ho
      · intro d hd
        by_cases hdc : d = c
        · rw [hdc, Function.update_same] at hd
          cases hd
        · rw [Function.update_noteq hdc] at hd
          exact absurd (honly d (hP3 d hd)) hdc
  | takeover t ht hmode hlock hflag =>
      dsimp only [KdSysInv]
      have honly : ∀ i, s.opFlag i = true → i = t := fun i hi => hP1 i t hi hflag
      have key : ∀ x, Function.update s.opFlag t true x = true → x = t := by
        intro x hx
        by_cases hxt : x = t
        · exact hxt
        · rw [Function.update_noteq hxt] at hx
          exact absurd (honly x hx) hxt
      refine ⟨?_, ?_, ?_, ?_, ?_, ?_⟩
      · intro i j hi hj
        rw [key i hi, key j hj]
      · intro hnone
        have hft := hP2 hnone t
        rw [hflag] at hft
        cases hft
      · intro d hd
        by_cases hdt : d = t
        · rw [hdt, Function.update_same]
        · rw [Function.update_noteq hdt] at hd
          rw [Function.update_noteq hdt]
          exact hP3 d hd
      · intro o ho hw hl hf
        by_cases hot : o = t
        · rw [hot, Function.update_same] at hw
          cases hw
        · rw [Function.update_noteq hot] at hw
          rw [Function.update_noteq hot] at hl
          rw [Function.update_noteq hot] at hf
          have hall := hE o ho hw hl hf
          have := hall t
          rw [hflag] at this
          cases this
      · intro o ho
        by_cases hot : o = t
        · rw [hot, Function.update_same]
          exact Or.inl rfl
        · rw [Function.update_noteq hot]
          exact hF o ho
      · intro d hd
        by_cases hdt : d = t
        · rw [hdt, Function.update_same]
        · rw [Function.update_noteq hdt] at hd
          rw [Function.update_noteq hdt]
          exact hG d hd
  | wakeup c hc hmode hlock hflag =>
      dsimp only [KdSysInv]
      refine ⟨hP1, ?_, ?_, ?_, ?_, ?_⟩
      · intro hnone
        by_cases hb : s.bpOwner = some c
        · exact hE c hb hmode hlock hflag
        · rw [if_neg hb] at hnone
          exact hP2 hnone
      · intro d hd
        by_cases hdc : d = c
        · rw [hdc, Function.update_same] at hd
          cases hd
        · rw [Function.update_noteq hdc] at hd
          exact hP3 d hd
      · intro o ho hw hl hf
        by_cases hb : s.bpOwner = some c
        · rw [if_pos hb] at ho
          cases ho
        · rw [if_neg hb] at ho
          have hoc : o ≠ c := by
            intro h
            rw [h] at ho
            exact hb ho
          rw [Function.update_noteq hoc] at hw
          exact hE o ho hw hl hf
      · intro o ho
        by_cases hb : s.bpOwner = some c
        · rw [if_pos hb] at ho
          cases ho
        · rw [if_neg hb] at ho
          have hoc : o ≠ c := by
            intro h
            rw [h] at ho
            exact hb ho
          rw [Function.update_noteq hoc]
          exact hF o ho
      · intro d hd
        by_cases hdc : d = c
        · rw [hdc, Function.update_same] at hd
          cases hd
        · rw [Function.update_noteq hdc] at hd
          exact hG d hd
  | continueAll c hc hmode =>
      dsimp only [KdSysInv]
      have hflagc : s.opFlag c = true := hP3 c hmode
      have honly : ∀ i, s.opFlag i = true → i = c := fun i hi => hP1 i c hi hflagc
      have hall : ∀ i, Function.update s.opFlag c false i = false := by
        intro i
        by_cases hic : i = c
        · rw [hic, Function.update_same]
        · rw [Function.update_noteq hic]
          cases hfi : s.opFlag i with
          | false => rfl
          | true => exact absurd (honly i hfi) hic
      refine ⟨?_, ?_, ?_, ?_, ?_, ?_⟩
      · intro i j hi _
        rw [hall i] at hi
        cases hi
      · intro _
        exact hall
      · intro d hd
        by_cases hdc : d = c
        · rw [hdc, Function.update_same] at hd
          cases hd
        · rw [Function.update_noteq hdc] at hd
          exact absurd (honly d (hP3 d hd)) hdc
      · intro o _ _ _ _
        exact hall
      · intro o ho
        by_cases hb : s.bpOwner = some c
        · rw [if_pos hb] at ho
          cases ho
        · rw [if_neg hb] at ho
          have hoc : o ≠ c := by
            intro h
            rw [h] at ho
            exact hb ho
          rcases hF o ho with hop | hwt
          · exact absurd (honly o (hP3 o hop)) hoc
          · rw [Function.update_noteq hoc]
            exact Or.inr hwt
      · intro d hd
        by_cases hdc : d = c
        · rw [hdc, Function.update_same] at hd
          cases hd
        · rw [Function.update_noteq hdc] at hd
          exact absurd (honly d (hP3 d hd)) hdc
  | continueCurrentCore c hc hmode =>
      dsimp only [KdSysInv]
      have hflagc : s.opFlag c = true := hP3 c hmode
      have honly : ∀ i, s.opFlag i = true → i = c := fun i hi => hP1 i c hi hflagc
      have hall : ∀ i, Function.update s.opFlag c false i = false := by
        intro i
        by_cases hic : i = c
        · rw [hic, Function.update_same]
        · rw [Function.update_noteq hic]
          cases hfi : s.opFlag i with
          | false => rfl
          | true => exact absurd (honly i hfi) hic
      refine ⟨?_, ?_, ?_, ?_, ?_, ?_⟩
      · intro i j hi _
        rw [hall i] at hi
        cases hi
      · intro _
        exact hall
      · intro d hd
        by_cases hdc : d = c
        · rw [hdc, Function.update_same] at hd
          cases hd
        · rw [Function.update_noteq hdc] at hd
          exact absurd (honly d (hP3 d hd)) hdc
      · intro o _ _ _ _
        exact hall
      · intro o ho
        by_cases hb : s.bpOwner = some c
        · rw [if_pos hb] at ho
          cases ho
        · rw [if_neg hb] at ho
          have hoc : o ≠ c := by
            intro h
            rw [h] at ho
            exact hb ho
          rcases hF o ho with hop | hwt
          · exact absurd (honly o (hP3 o hop)) hoc
          · rw [Function.update_noteq hoc]
            exact Or.inr hwt
      · intro d hd
        by_cases hdc : d = c
        · rw [hdc, Function.update_same] at hd
          cases hd
        · rw [Function.update_noteq hdc] at hd
          exact absurd (honly d (hP3 d hd)) hdc

theorem kdSysInv_reachable {n : Nat} {s : KdSystem}
    (h : KdReachable n s) : KdSysInv s := by
  induction h with
  | base => exact kdSysInv_init
  | step _ hstep ih => exact kdSysInv_step ih hstep

/-- The number of cores whose `CurrentOperatingCore` flag is TRUE. -/
def kdCountOperating (n : Nat) (s : KdSystem) : Nat :=
  ((Finset.range n).filter (fun i => s.opFlag i = true)).card

/-- C1: at most one core has its `CurrentOperatingCore` flag equal to TRUE
in every state reachable under any interleaving of trap entries, NMI
parkings, change-core commands, takeovers by a waiting core, and
continue-class commands. -/
theorem kd_c1_at_most_one_operating_core (n : Nat) (s : KdSystem)
    (h : KdReachable n s) : kdCountOperating n s ≤ 1 := by
  obtain ⟨hP1, -⟩ := kdSysInv_reachable h
  apply Finset.card_le_one.mpr
  intro a ha b hb
  rw [Finset.mem_filter] at ha hb
  exact hP1 a b ha.2 hb.2

/-- The state after core 0 traps on a two-core machine. -/
def kdC1TrapState : KdSystem :=
  { mode := Function.update kdSystemInit.mode 0 .operating,
    opFlag := Function.update kdSystemInit.opFlag 0 true,
    lockHeld := Function.update kdSystemInit.lockHeld 0 true,
    bpOwner := some 0 }

theorem kd_c1_witness :
    KdReachable 2 kdC1TrapState ∧ kdCountOperating 2 kdC1TrapState ≤ 1 :=
  have hreach : KdReachable 2 kdC1TrapState :=
    KdReachable.step KdReachable.base
      (KdStep.trap kdSystemInit 0 (by decide) rfl rfl)
  ⟨hreach, kd_c1_at_most_one_operating_core 2 kdC1TrapState hreach⟩

end HyperDbgKd
